import Mathlib

/-!
Verification of the strategic signal lifecycle, confluence, risk and
position-tracking core of the trading system.  Every definition below is a
shallow embedding of the corresponding Python source:

  - src/application/services/setup_lifecycle_manager.py
  - src/application/services/strategic_signal_service.py
  - src/analyzers/confluence/context_filters.py
  - src/application/services/risk_management_service.py
  - src/application/services/position_manager.py
  - src/domain/entities/strategic_signal.py

Modelling conventions:
  - Python float prices, amounts and scores become exact rationals.
  - Wall-clock datetimes become integer second counts; a timedelta in
    whole seconds (the Python .seconds field for sub-day spans) becomes
    integer subtraction.
  - Python dicts keyed by strings or enums become association lists with
    the usual lookup, insert-or-replace and erase operations; insertion
    order and replace-in-place semantics match dict behaviour for the
    unique-key states the services maintain.
  - A bounded deque (maxlen = n) becomes a list where pushing drops the
    oldest entries beyond n.
  - Log statements, event-bus wiring and per-state callback tables are
    side channels the claims do not touch; published events and scheduled
    timers are recorded in explicit lists where a claim mentions them.
-/

namespace Trading

/-- Association list lookup, mirroring Python dict read access. -/
def lookupA {α β : Type} [DecidableEq α] (k : α) : List (α × β) → Option β
  | [] => none
  | (k2, v) :: rest => if k2 = k then some v else lookupA k rest

/-- Association list insert-or-replace, mirroring Python dict assignment. -/
def insertA {α β : Type} [DecidableEq α] (k : α) (v : β) : List (α × β) → List (α × β)
  | [] => [(k, v)]
  | (k2, v2) :: rest => if k2 = k then (k, v) :: rest else (k2, v2) :: insertA k v rest

/-- Association list removal, mirroring Python dict del. -/
def eraseA {α β : Type} [DecidableEq α] (k : α) : List (α × β) → List (α × β)
  | [] => []
  | (k2, v2) :: rest => if k2 = k then rest else (k2, v2) :: eraseA k rest

/-- Append to a bounded container, mirroring deque(maxlen = n).append. -/
def pushBounded {α : Type} (n : Nat) (l : List α) (x : α) : List α :=
  let l2 := l ++ [x]
  l2.drop (l2.length - n)

/-- Character-list prefix test. -/
def charsLeadWith : List Char → List Char → Bool
  | [], _ => true
  | _ :: _, [] => false
  | c :: cs, d :: ds => decide (c = d) && charsLeadWith cs ds

/-- Python str.startswith over the underlying character lists. -/
def strStartsWith (s p : String) : Bool := charsLeadWith p.toList s.toList

/-- Python int() applied to a rational: truncation toward zero. -/
def pyTrunc (q : ℚ) : ℤ :=
  if 0 ≤ q then ⌊q⌋ else ⌈q⌉

/-- Python falsy-or on an optional price: a present but zero price is falsy. -/
def pyOrPrice (a : Option ℚ) (b : ℚ) : ℚ :=
  match a with
  | some p => if p = 0 then b else p
  | none => b

/-! Enumerations from src/domain/entities/strategic_signal.py. -/

/-- SetupType enumeration. -/
inductive SetupType
  | reversalSlow
  | reversalViolent
  | breakoutIgnition
  | pullbackRejection
  | divergenceSetup
  deriving DecidableEq, BEq, Repr

/-- SignalState enumeration: lifecycle states of a strategic signal. -/
inductive SignalState
  | pending
  | active
  | executed
  | expired
  | stopped
  | targetHit
  deriving DecidableEq, BEq, Repr

/-- ConflictStatus enumeration for DOL/WDO confluence. -/
inductive ConflictStatus
  | noConflict
  | minorConflict
  | majorConflict
  deriving DecidableEq, BEq, Repr

/-- EntryType enumeration. -/
inductive EntryType
  | market
  | limit
  | stop
  | adaptive
  deriving DecidableEq, BEq, Repr

/-- StrategicSignal entity (src/domain/entities/strategic_signal.py).
    The pydantic model constrains confidence to [0, 1] and prices to be
    positive at construction; the free-form setup-details payload and the
    formatted display helpers are omitted. -/
structure StrategicSignal where
  id : String
  symbol : String
  setupType : SetupType
  direction : String
  entryPrice : ℚ
  entryType : EntryType
  stopLoss : ℚ
  targets : List ℚ
  confidence : ℚ
  riskReward : ℚ
  conflictStatus : ConflictStatus
  confluenceFactors : List String
  state : SignalState
  timestamp : ℤ
  expirationTime : ℤ
  timeToExpirySeconds : ℤ
  executionPrice : Option ℚ
  executionTime : Option ℤ
  exitPrice : Option ℚ
  exitTime : Option ℤ
  pnl : Option ℚ
  deriving DecidableEq, Repr

/-- Optional keyword arguments of SetupLifecycleManager.transition_state. -/
structure TransitionArgs where
  executionPrice : Option ℚ
  exitPrice : Option ℚ
  deriving DecidableEq, Repr

/-- StrategicSignal.update_state.  The Python truthiness test on
    execution_price means a present-but-zero execution price skips the
    realized P and L computation. -/
def updateState (s : StrategicSignal) (newState : SignalState)
    (args : TransitionArgs) (now : ℤ) : StrategicSignal :=
  let s1 := { s with state := newState }
  if newState = SignalState.executed then
    match args.executionPrice with
    | some p => { s1 with executionPrice := some p, executionTime := some now }
    | none => s1
  else if newState = SignalState.stopped ∨ newState = SignalState.targetHit then
    match args.exitPrice with
    | some p =>
      let s2 := { s1 with exitPrice := some p, exitTime := some now }
      match s2.executionPrice with
      | some ep =>
        if ep = 0 then s2
        else if s2.direction = "COMPRA" then { s2 with pnl := some ((p - ep) * 10) }
        else { s2 with pnl := some ((ep - p) * 10) }
      | none => s2
    | none => s1
  else s1

/-! Lifecycle manager, src/application/services/setup_lifecycle_manager.py. -/

/-- Events published by the lifecycle manager on the bus. -/
inductive LMEvent
  | created (signalId : String) (timeoutSeconds : ℤ)
  | stateChanged (signalId : String) (oldState newState : SignalState)
  | expiredEvent (signalId : String) (reason : String)
  deriving DecidableEq, Repr

/-- Per-setup-kind timeout configuration (seconds), with the source
    defaults reversal_slow 600, reversal_violent 300, breakout_ignition
    900, pullback_rejection 600, divergence_setup 480. -/
structure TimeoutConfig where
  reversalSlow : ℤ
  reversalViolent : ℤ
  breakoutIgnition : ℤ
  pullbackRejection : ℤ
  divergenceSetup : ℤ
  deriving DecidableEq, Repr

def defaultTimeoutConfig : TimeoutConfig :=
  { reversalSlow := 600, reversalViolent := 300, breakoutIgnition := 900,
    pullbackRejection := 600, divergenceSetup := 480 }

/-- The timeout_config dict built in the manager constructor. -/
def timeoutTable (c : TimeoutConfig) : List (SetupType × ℤ) :=
  [(SetupType.reversalSlow, c.reversalSlow),
   (SetupType.reversalViolent, c.reversalViolent),
   (SetupType.breakoutIgnition, c.breakoutIgnition),
   (SetupType.pullbackRejection, c.pullbackRejection),
   (SetupType.divergenceSetup, c.divergenceSetup)]

/-- timeout_config.get(setup_type, 300): table lookup with the 300-second
    default fallback. -/
def timeoutFor (c : TimeoutConfig) (t : SetupType) : ℤ :=
  match lookupA t (timeoutTable c) with
  | some v => v
  | none => 300

/-- Mutable state of SetupLifecycleManager: active signals by id, the
    bounded history, counters, plus explicit journals of published events
    and scheduled auto-activation timers. -/
structure LifecycleState where
  activeSignals : List (String × StrategicSignal)
  signalHistory : List StrategicSignal
  totalCreated : Nat
  totalExecuted : Nat
  totalExpired : Nat
  totalStopped : Nat
  totalTargetsHit : Nat
  events : List LMEvent
  pendingTimers : List String
  deriving DecidableEq, Repr

/-- The fixed transition table of _is_valid_transition. -/
def validTransitions : SignalState → List SignalState
  | SignalState.pending => [SignalState.active, SignalState.expired]
  | SignalState.active => [SignalState.executed, SignalState.expired]
  | SignalState.executed => [SignalState.stopped, SignalState.targetHit]
  | SignalState.expired => []
  | SignalState.stopped => []
  | SignalState.targetHit => []

/-- _is_valid_transition: membership in the fixed table. -/
def isValidTransition (fromState toState : SignalState) : Bool :=
  (validTransitions fromState).contains toState

/-- Terminal states, as listed in transition_state for archival. -/
def isTerminal (s : SignalState) : Bool :=
  match s with
  | SignalState.expired => true
  | SignalState.stopped => true
  | SignalState.targetHit => true
  | _ => false

/-- _archive_signal: move to bounded history (deque maxlen 100), drop
    from the active map. -/
def archiveSignal (st : LifecycleState) (s : StrategicSignal) : LifecycleState :=
  { st with signalHistory := pushBounded 100 st.signalHistory s,
            activeSignals := eraseA s.id st.activeSignals }

/-- SetupLifecycleManager.transition_state.  Per-state callbacks are
    best-effort side effects outside the model. -/
def transitionState (st : LifecycleState) (signalId : String)
    (newState : SignalState) (args : TransitionArgs) (now : ℤ) :
    Bool × LifecycleState :=
  match lookupA signalId st.activeSignals with
  | none => (false, st)
  | some signal =>
    let oldState := signal.state
    if isValidTransition oldState newState then
      let signal2 := updateState signal newState args now
      let st1 := { st with
        activeSignals := insertA signalId signal2 st.activeSignals,
        events := st.events ++ [LMEvent.stateChanged signalId oldState newState] }
      let st2 :=
        if newState = SignalState.executed then
          { st1 with totalExecuted := st1.totalExecuted + 1 }
        else if newState = SignalState.expired then
          { st1 with totalExpired := st1.totalExpired + 1 }
        else if newState = SignalState.stopped then
          { st1 with totalStopped := st1.totalStopped + 1 }
        else if newState = SignalState.targetHit then
          { st1 with totalTargetsHit := st1.totalTargetsHit + 1 }
        else st1
      let st3 := if isTerminal newState then archiveSignal st2 signal2 else st2
      (true, st3)
    else (false, st)

/-- SetupLifecycleManager.create_signal: assigns the per-kind expiration,
    forces state PENDING, registers the signal under its id (overwriting
    any same-id entry), bumps the counter, publishes the creation event,
    schedules the 2-second auto-activation timer, and returns True. -/
def createSignal (cfg : TimeoutConfig) (st : LifecycleState)
    (signal : StrategicSignal) (now : ℤ) : Bool × LifecycleState :=
  let timeoutSeconds := timeoutFor cfg signal.setupType
  let signal2 := { signal with
    expirationTime := now + timeoutSeconds,
    timeToExpirySeconds := timeoutSeconds,
    state := SignalState.pending }
  (true,
   { st with
     activeSignals := insertA signal2.id signal2 st.activeSignals,
     totalCreated := st.totalCreated + 1,
     events := st.events ++ [LMEvent.created signal2.id timeoutSeconds],
     pendingTimers := st.pendingTimers ++ [signal2.id] })

/-- SetupLifecycleManager._auto_activate_signal: under the lock, fires the
    PENDING to ACTIVE transition only if the signal is still present and
    still pending. -/
def autoActivateSignal (st : LifecycleState) (signalId : String) (now : ℤ) :
    LifecycleState :=
  match lookupA signalId st.activeSignals with
  | some signal =>
    if signal.state = SignalState.pending then
      (transitionState st signalId SignalState.active
        { executionPrice := none, exitPrice := none } now).2
    else st
  | none => st

/-! Context filters, src/analyzers/confluence/context_filters.py. -/

/-- One order-book level (price, volume). -/
structure BookLevel where
  price : ℚ
  volume : ℚ
  deriving DecidableEq, Repr

/-- Order book snapshot with bid and ask ladders. -/
structure OrderBook where
  bids : List BookLevel
  asks : List BookLevel
  deriving DecidableEq, Repr

/-- The slice of the context dict that apply_all reads: the optional book
    snapshot and the optional top-level volatility key.  The service
    builder nests volatility inside regime_info, so the top-level key is
    absent on the service path. -/
structure FilterContext where
  book : Option OrderBook
  volatility : Option String
  deriving DecidableEq, Repr

/-- Adjustment set produced by the filters; a field is some/true exactly
    when the corresponding dict key is present. -/
structure Adjustments where
  tightenStop : Option ℚ
  widenStop : Option ℚ
  reduceSize : Option ℚ
  useLimitOrders : Bool
  deriving DecidableEq, Repr

def noAdjustments : Adjustments :=
  { tightenStop := none, widenStop := none, reduceSize := none, useLimitOrders := false }

/-- dict.update merge: keys of the second argument overwrite. -/
def mergeAdjustments (a b : Adjustments) : Adjustments :=
  { tightenStop := match b.tightenStop with | some v => some v | none => a.tightenStop,
    widenStop := match b.widenStop with | some v => some v | none => a.widenStop,
    reduceSize := match b.reduceSize with | some v => some v | none => a.reduceSize,
    useLimitOrders := a.useLimitOrders || b.useLimitOrders }

/-- Result of one individual filter. -/
structure FilterResult where
  passed : Bool
  score : ℚ
  adjustments : Adjustments
  warnings : List String
  deriving DecidableEq, Repr

/-- ContextFilters._check_basic_validity. -/
def checkBasicValidity (signal : StrategicSignal) : FilterResult :=
  if signal.stopLoss ≤ 0 ∨ signal.entryPrice ≤ 0 then
    { passed := false, score := 0, adjustments := noAdjustments,
      warnings := ["Preco de entrada ou stop invalido"] }
  else if signal.riskReward < 1 then
    { passed := true, score := 6/10, adjustments := noAdjustments,
      warnings := ["RR abaixo de um para um"] }
  else
    { passed := true, score := 1, adjustments := noAdjustments, warnings := [] }

/-- The fixed bid/ask imbalance threshold of the constructor. -/
def manipulationThreshold : ℚ := 5

/-- ContextFilters._check_manipulation: top-five-level volume imbalance;
    the formatted warning text is replaced by a fixed marker string. -/
def checkManipulation (book : OrderBook) : FilterResult :=
  if book.bids = [] ∨ book.asks = [] then
    { passed := true, score := 1, adjustments := noAdjustments, warnings := [] }
  else
    let bidVolume := ((book.bids.take 5).map (fun l => l.volume)).sum
    let askVolume := ((book.asks.take 5).map (fun l => l.volume)).sum
    if bidVolume = 0 ∨ askVolume = 0 then
      { passed := true, score := 1, adjustments := noAdjustments, warnings := [] }
    else
      let imbalanceRatio := max (bidVolume / askVolume) (askVolume / bidVolume)
      if imbalanceRatio > manipulationThreshold then
        { passed := true, score := 5/10,
          adjustments := { tightenStop := none, widenStop := none,
                           reduceSize := some (7/10), useLimitOrders := true },
          warnings := ["Book desbalanceado"] }
      else
        { passed := true, score := 1, adjustments := noAdjustments, warnings := [] }

/-- ContextFilters._adjust_for_volatility. -/
def adjustForVolatility (volatility : String) : FilterResult :=
  let adjustments :=
    if volatility = "HIGH" then
      { tightenStop := none, widenStop := some (13/10),
        reduceSize := some (8/10), useLimitOrders := false }
    else if volatility = "EXTREME" then
      { tightenStop := none, widenStop := some (15/10),
        reduceSize := some (6/10), useLimitOrders := false }
    else if volatility = "LOW" then
      { tightenStop := some (8/10), widenStop := none,
        reduceSize := none, useLimitOrders := false }
    else noAdjustments
  { passed := true,
    score := if volatility = "HIGH" ∨ volatility = "EXTREME" then 8/10 else 1,
    adjustments := adjustments, warnings := [] }

/-- Consolidated result of ContextFilters.apply_all. -/
structure ApplyAllResult where
  passed : Bool
  finalScore : ℚ
  confidenceMultiplier : ℚ
  adjustments : Adjustments
  warnings : List String
  deriving DecidableEq, Repr

/-- ContextFilters.apply_all.  The enabled flag is the instance toggle;
    the recommendation strings are omitted. -/
def applyAll (enabled : Bool) (signal : StrategicSignal) (ctx : FilterContext) :
    ApplyAllResult :=
  if ¬ enabled then
    { passed := true, finalScore := 1, confidenceMultiplier := 1,
      adjustments := noAdjustments, warnings := [] }
  else
    let basic := checkBasicValidity signal
    if ¬ basic.passed then
      { passed := false, finalScore := 0, confidenceMultiplier := 5/10,
        adjustments := noAdjustments, warnings := basic.warnings }
    else
      let manipResults :=
        match ctx.book with
        | some book => [checkManipulation book]
        | none => []
      let volResults :=
        match ctx.volatility with
        | some v => [adjustForVolatility v]
        | none => []
      let results := [basic] ++ manipResults ++ volResults
      let warnings := (manipResults.map (fun r => r.warnings)).flatten
      let adjustments :=
        (volResults.foldl (fun a r => mergeAdjustments a r.adjustments)
          (manipResults.foldl (fun a r => mergeAdjustments a r.adjustments) noAdjustments))
      let totalScore := ((results.map (fun r => r.score)).sum) / (results.length : ℚ)
      let passed :=
        decide (totalScore ≥ 5/10) && ! (results.any (fun r => decide (r.score < 3/10)))
      let confidenceMultiplier := min (max totalScore (5/10)) 1
      { passed := passed, finalScore := totalScore,
        confidenceMultiplier := confidenceMultiplier,
        adjustments := adjustments, warnings := warnings.take 3 }

/-! Strategic signal service, src/application/services/strategic_signal_service.py. -/

/-- The hard-coded confluence tuning dict of the service constructor. -/
structure ConfluenceConfig where
  timeoutSeconds : ℤ
  priceDivergenceMax : ℚ
  confidenceBoost : ℚ
  confidencePenalty : ℚ
  deriving DecidableEq, Repr

def confluenceConfig : ConfluenceConfig :=
  { timeoutSeconds := 10, priceDivergenceMax := 5/10000,
    confidenceBoost := 15/100, confidencePenalty := 20/100 }

/-- The opposite instrument: DOL for WDO, WDO otherwise. -/
def otherSymbol (symbol : String) : String :=
  if symbol = "WDO" then "DOL" else "WDO"

/-- Pending confluence slots: symbol mapped to the waiting candidate and
    its arrival time in seconds. -/
abbrev PendingMap := List (String × (StrategicSignal × ℤ))

/-- The fixed setup-kind compatibility table of _analyze_confluence. -/
def compatibleSetups : SetupType → List SetupType
  | SetupType.reversalSlow => [SetupType.reversalSlow, SetupType.divergenceSetup]
  | SetupType.reversalViolent => [SetupType.reversalViolent, SetupType.reversalSlow]
  | SetupType.breakoutIgnition => [SetupType.breakoutIgnition, SetupType.pullbackRejection]
  | SetupType.pullbackRejection => [SetupType.pullbackRejection, SetupType.breakoutIgnition]
  | SetupType.divergenceSetup => [SetupType.divergenceSetup, SetupType.reversalSlow]

/-- StrategicSignalService._analyze_confluence, returning the conflict
    classification (the informational details payload is omitted). -/
def analyzeConfluence (signal1 signal2 : StrategicSignal) : ConflictStatus :=
  if signal1.direction ≠ signal2.direction then ConflictStatus.majorConflict
  else
    let priceDiff := |signal1.entryPrice - signal2.entryPrice|
    let avgPrice := (signal1.entryPrice + signal2.entryPrice) / 2
    let priceDivergence := if avgPrice > 0 then priceDiff / avgPrice else 0
    if priceDivergence > confluenceConfig.priceDivergenceMax then ConflictStatus.minorConflict
    else if ¬ (compatibleSetups signal1.setupType).contains signal2.setupType then
      ConflictStatus.minorConflict
    else
      let timeDiff := |signal1.timestamp - signal2.timestamp|
      if timeDiff > 30 then ConflictStatus.minorConflict
      else ConflictStatus.noConflict

/-- StrategicSignalService._check_confluence: one-shot pairing against the
    other-symbol slot.  A slot older than the timeout is discarded and the
    new candidate stored (unresolved, reported NO_CONFLICT); a young slot
    is analyzed and consumed whatever the outcome. -/
def checkConfluence (pending : PendingMap) (signal : StrategicSignal) (now : ℤ) :
    ConflictStatus × PendingMap :=
  let other := otherSymbol signal.symbol
  match lookupA other pending with
  | some (otherSignal, ts) =>
    if now - ts > confluenceConfig.timeoutSeconds then
      (ConflictStatus.noConflict,
       insertA signal.symbol (signal, now) (eraseA other pending))
    else
      (analyzeConfluence signal otherSignal, eraseA other pending)
  | none =>
    (ConflictStatus.noConflict, insertA signal.symbol (signal, now) pending)

/-- StrategicSignalService._determine_entry_type. -/
def determineEntryType : SetupType → EntryType
  | SetupType.reversalViolent => EntryType.market
  | SetupType.reversalSlow => EntryType.limit
  | SetupType.pullbackRejection => EntryType.limit
  | SetupType.breakoutIgnition => EntryType.stop
  | SetupType.divergenceSetup => EntryType.adaptive

/-- Caller-supplied arguments of create_strategic_signal. -/
structure SignalInput where
  setupType : SetupType
  symbol : String
  direction : String
  entryPrice : ℚ
  stopLoss : ℚ
  targets : List ℚ
  confidence : ℚ
  confluenceFactors : List String
  deriving DecidableEq, Repr

/-- The initial StrategicSignal built at the top of create_strategic_signal,
    with the computed risk/reward and the temporary five-minute expiry. -/
def mkInitialSignal (inp : SignalInput) (signalId : String) (now : ℤ) :
    StrategicSignal :=
  let risk := |inp.entryPrice - inp.stopLoss|
  let reward :=
    match inp.targets with
    | t :: _ => |t - inp.entryPrice|
    | [] => risk
  let riskReward := if risk > 0 then reward / risk else 0
  { id := signalId, symbol := inp.symbol, setupType := inp.setupType,
    direction := inp.direction, entryPrice := inp.entryPrice,
    entryType := determineEntryType inp.setupType, stopLoss := inp.stopLoss,
    targets := inp.targets, confidence := inp.confidence,
    riskReward := riskReward, conflictStatus := ConflictStatus.noConflict,
    confluenceFactors := inp.confluenceFactors, state := SignalState.pending,
    timestamp := now, expirationTime := now + 300, timeToExpirySeconds := 300,
    executionPrice := none, executionTime := none, exitPrice := none,
    exitTime := none, pnl := none }

/-- StrategicSignalService._apply_filter_adjustments: stop tightening or
    widening (tighten takes priority) and market-to-limit entry demotion. -/
def applyFilterAdjustments (signal : StrategicSignal) (adj : Adjustments) :
    StrategicSignal :=
  let s1 :=
    match adj.tightenStop with
    | some factor =>
      if signal.direction = "COMPRA" then
        { signal with stopLoss := signal.entryPrice - (signal.entryPrice - signal.stopLoss) / factor }
      else
        { signal with stopLoss := signal.entryPrice + (signal.stopLoss - signal.entryPrice) / factor }
    | none =>
      match adj.widenStop with
      | some factor =>
        if signal.direction = "COMPRA" then
          { signal with stopLoss := signal.entryPrice - (signal.entryPrice - signal.stopLoss) * factor }
        else
          { signal with stopLoss := signal.entryPrice + (signal.stopLoss - signal.entryPrice) * factor }
      | none => signal
  if adj.useLimitOrders ∧ s1.entryType = EntryType.market then
    { s1 with entryType := EntryType.limit }
  else s1

/-- The confidence adjustment applied after confluence matching: a fixed
    capped boost on NO_CONFLICT, a fixed fractional penalty on
    MAJOR_CONFLICT, no change on MINOR_CONFLICT. -/
def confluenceAdjustedConfidence (c : ℚ) (cst : ConflictStatus) : ℚ :=
  if cst = ConflictStatus.noConflict then min (c + confluenceConfig.confidenceBoost) 1
  else if cst = ConflictStatus.majorConflict then c * (1 - confluenceConfig.confidencePenalty)
  else c

/-- The candidate signal after steps 2 and 3 of create_strategic_signal:
    confidence scaled by the filter multiplier (capped at 1) and the
    filter adjustments applied. -/
def preConfluenceSignal (filtersEnabled : Bool) (inp : SignalInput)
    (ctx : FilterContext) (signalId : String) (now : ℤ) : StrategicSignal :=
  let signal0 := mkInitialSignal inp signalId now
  let fr := applyAll filtersEnabled signal0 ctx
  let signal1 := { signal0 with confidence := min (signal0.confidence * fr.confidenceMultiplier) 1 }
  applyFilterAdjustments signal1 fr.adjustments

/-- StrategicSignalService.create_strategic_signal, threaded over the
    pending-confluence map.  Returns the approved signal (None when a
    filter or the major-conflict rule rejects it) together with the
    updated pending map; registration with the lifecycle manager and the
    display events are downstream of the returned signal.  The warning
    marker prefix replaces the emoji of the source. -/
def createStrategicSignal (filtersEnabled : Bool) (pending : PendingMap)
    (inp : SignalInput) (ctx : FilterContext) (signalId : String) (now : ℤ) :
    Option StrategicSignal × PendingMap :=
  let signal0 := mkInitialSignal inp signalId now
  let fr := applyAll filtersEnabled signal0 ctx
  if ¬ fr.passed then (none, pending)
  else
    let signal2 := preConfluenceSignal filtersEnabled inp ctx signalId now
    let cres := checkConfluence pending signal2 now
    let signal3 := { signal2 with conflictStatus := cres.1 }
    let signal4 := { signal3 with confidence := confluenceAdjustedConfidence signal3.confidence cres.1 }
    if cres.1 = ConflictStatus.majorConflict ∧ signal4.confidence < 5/10 then
      (none, cres.2)
    else
      let signal5 := { signal4 with
        confluenceFactors := signal4.confluenceFactors ++
          ((fr.warnings.take 2).map (fun w => "aviso: " ++ w)) }
      (some signal5, cres.2)

/-! Risk governor, src/application/services/risk_management_service.py. -/

/-- RiskLevel enumeration. -/
inductive RiskLevel
  | low
  | medium
  | high
  | critical
  deriving DecidableEq, BEq, Repr

/-- Signal source enumeration, restricted to the cases the scoring reads. -/
inductive SignalSourceT
  | confluence
  | arbitrage
  | tapeReading
  | otherSource
  deriving DecidableEq, BEq, Repr

/-- Signal alert level enumeration. -/
inductive SignalLevelT
  | alert
  | warningLevel
  | info
  deriving DecidableEq, BEq, Repr

/-- The slice of a generated Signal that evaluate_signal reads: source,
    level, and the optional detail-payload fields.  An optional field is
    none exactly when the dict key is absent (for the pattern, absent or
    the empty string). -/
structure RiskSignal where
  source : SignalSourceT
  level : SignalLevelT
  profit : Option ℚ
  confirmations : Option Nat
  originalPattern : Option String
  cvdRoc : Option ℚ
  deriving DecidableEq, Repr

/-- Mutable state of RiskManagementService: configured limits, rolling
    approval timestamps (bounded deques), performance metrics and the five
    circuit breakers. -/
structure RiskState where
  maxSignalsPerMinute : Nat
  maxSignalsPerHour : Nat
  maxConfluencePerHour : Nat
  signalQualityThreshold : ℚ
  consecutiveLossesLimit : Nat
  maxDrawdownPercent : ℚ
  emergencyStopLoss : ℚ
  tsAll : List ℤ
  tsConfluence : List ℤ
  tsArbitrage : List ℤ
  tsTapeReading : List ℤ
  totalSignals : Nat
  signalsApproved : Nat
  signalsRejected : Nat
  consecutiveLosses : Nat
  dailyPnl : ℚ
  peakPnl : ℚ
  currentDrawdown : ℚ
  cbFrequency : Bool
  cbQuality : Bool
  cbDrawdown : Bool
  cbConsecutiveLosses : Bool
  cbEmergency : Bool
  deriving DecidableEq, Repr

/-- RiskManagementService._calculate_current_risk_level. -/
def calculateCurrentRiskLevel (st : RiskState) : RiskLevel :=
  if st.cbEmergency then RiskLevel.critical
  else if st.cbConsecutiveLosses || st.cbDrawdown then RiskLevel.critical
  else if (st.consecutiveLosses : ℚ) ≥ (st.consecutiveLossesLimit : ℚ) then RiskLevel.critical
  else if (st.consecutiveLosses : ℚ) ≥ (st.consecutiveLossesLimit : ℚ) * (6/10) then RiskLevel.high
  else if (st.consecutiveLosses : ℚ) ≥ (st.consecutiveLossesLimit : ℚ) * (3/10) then RiskLevel.medium
  else if st.currentDrawdown ≥ st.maxDrawdownPercent then RiskLevel.critical
  else if st.currentDrawdown ≥ st.maxDrawdownPercent * (7/10) then RiskLevel.high
  else if st.currentDrawdown ≥ st.maxDrawdownPercent * (4/10) then RiskLevel.medium
  else if st.dailyPnl ≤ -st.emergencyStopLoss then RiskLevel.critical
  else if st.dailyPnl ≤ -st.emergencyStopLoss * (5/10) then RiskLevel.high
  else if st.dailyPnl ≤ -st.emergencyStopLoss * (2/10) then RiskLevel.medium
  else RiskLevel.low

/-- RiskManagementService._check_circuit_breakers reduced to its
    all_clear bit: any tripped breaker blocks. -/
def anyBreakerTripped (st : RiskState) : Bool :=
  st.cbEmergency || st.cbConsecutiveLosses || st.cbDrawdown || st.cbFrequency || st.cbQuality

/-- Count of recorded timestamps strictly after the cutoff. -/
def countAfter (cutoff : ℤ) (l : List ℤ) : Nat :=
  (l.filter (fun ts => cutoff < ts)).length

/-- RiskManagementService._check_signal_frequency reduced to its
    within_limits bit. -/
def checkSignalFrequency (st : RiskState) (sig : RiskSignal) (now : ℤ) : Bool :=
  if countAfter (now - 60) st.tsAll ≥ st.maxSignalsPerMinute then false
  else if countAfter (now - 3600) st.tsAll ≥ st.maxSignalsPerHour then false
  else if sig.source = SignalSourceT.confluence then
    decide (countAfter (now - 3600) st.tsConfluence < st.maxConfluencePerHour)
  else true

/-- The fixed high-quality pattern list. -/
def highQualityPatterns : List String :=
  ["ESCORA_DETECTADA", "DIVERGENCIA_ALTA", "DIVERGENCIA_BAIXA", "ICEBERG"]

/-- RiskManagementService._evaluate_signal_quality: the normalized score
    (score over the constant maximum 4.6). -/
def qualityScore (sig : RiskSignal) : ℚ :=
  let sourceScore : ℚ :=
    match sig.source with
    | SignalSourceT.confluence => 15/10
    | SignalSourceT.arbitrage => 12/10
    | SignalSourceT.tapeReading => 8/10
    | SignalSourceT.otherSource => 4/10
  let levelScore : ℚ :=
    match sig.level with
    | SignalLevelT.alert => 8/10
    | SignalLevelT.warningLevel => 5/10
    | SignalLevelT.info => 2/10
  let profitScore : ℚ :=
    match sig.profit with
    | some p => if p ≥ 50 then 8/10 else if p ≥ 20 then 5/10 else 2/10
    | none => 0
  let confirmationScore : ℚ :=
    match sig.confirmations with
    | some n => if n ≥ 3 then 7/10 else if n ≥ 2 then 5/10 else 2/10
    | none => 0
  let patternScore : ℚ :=
    match sig.originalPattern with
    | some p => if highQualityPatterns.contains p then 8/10 else 4/10
    | none => 0
  (sourceScore + levelScore + profitScore + confirmationScore + patternScore) / (46/10)

/-- RiskManagementService._evaluate_contextual_risk: the additive risk
    score; the hour argument is the local wall-clock hour. -/
def contextualRiskScore (st : RiskState) (sig : RiskSignal) (hour : ℤ) : Nat :=
  let base :=
    match calculateCurrentRiskLevel st with
    | RiskLevel.critical => 3
    | RiskLevel.high => 2
    | RiskLevel.medium => 1
    | RiskLevel.low => 0
  let s1 := base + (if st.currentDrawdown > st.maxDrawdownPercent * (7/10) then 2 else 0)
  let s2 := s1 + (if (st.consecutiveLosses : ℚ) ≥ (st.consecutiveLossesLimit : ℚ) * (7/10) then 2 else 0)
  let s3 := s2 + (if hour < 10 ∨ hour > 16 then 1 else 0)
  s3 + (match sig.cvdRoc with
        | some r => if |r| > 150 then 1 else 0
        | none => 0)

/-- The fixed cut points mapping the contextual score to a level. -/
def contextualRiskLevel (score : Nat) : RiskLevel :=
  if score ≥ 4 then RiskLevel.critical
  else if score ≥ 3 then RiskLevel.high
  else if score ≥ 2 then RiskLevel.medium
  else RiskLevel.low

/-- RiskManagementService._record_signal_approval: counters, the bounded
    timestamp deques (the per-source key exists for confluence, arbitrage
    and tape_reading), and history (history contents omitted). -/
def recordSignalApproval (st : RiskState) (sig : RiskSignal) (now : ℤ) : RiskState :=
  let st1 := { st with
    totalSignals := st.totalSignals + 1,
    signalsApproved := st.signalsApproved + 1,
    tsAll := pushBounded 500 st.tsAll now }
  match sig.source with
  | SignalSourceT.confluence => { st1 with tsConfluence := pushBounded 100 st1.tsConfluence now }
  | SignalSourceT.arbitrage => { st1 with tsArbitrage := pushBounded 200 st1.tsArbitrage now }
  | SignalSourceT.tapeReading => { st1 with tsTapeReading := pushBounded 300 st1.tsTapeReading now }
  | SignalSourceT.otherSource => st1

/-- Outcome of evaluate_signal: the approval bit, the assessment risk
    level, and the state after the call. -/
structure EvalOutcome where
  approved : Bool
  riskLevel : RiskLevel
  state : RiskState
  deriving DecidableEq, Repr

/-- RiskManagementService.evaluate_signal: the five-step short-circuit
    chain of breaker, frequency, quality, contextual-risk checks and the
    approval recording. -/
def evaluateSignal (st : RiskState) (sig : RiskSignal) (now : ℤ) (hour : ℤ) :
    EvalOutcome :=
  if anyBreakerTripped st then
    { approved := false, riskLevel := RiskLevel.critical, state := st }
  else if ¬ checkSignalFrequency st sig now then
    { approved := false, riskLevel := RiskLevel.high, state := st }
  else if qualityScore sig < st.signalQualityThreshold then
    { approved := false, riskLevel := RiskLevel.medium, state := st }
  else
    let ctxLevel := contextualRiskLevel (contextualRiskScore st sig hour)
    if ctxLevel = RiskLevel.high ∨ ctxLevel = RiskLevel.critical then
      { approved := false, riskLevel := ctxLevel, state := st }
    else
      { approved := true, riskLevel := ctxLevel,
        state := recordSignalApproval st sig now }

/-- RiskManagementService._update_circuit_breakers: recomputes the three
    metric-driven breakers from the current metrics. -/
def updateCircuitBreakers (st : RiskState) : RiskState :=
  { st with
    cbConsecutiveLosses := decide ((st.consecutiveLosses : ℚ) ≥ (st.consecutiveLossesLimit : ℚ)),
    cbDrawdown := decide (st.currentDrawdown ≥ st.maxDrawdownPercent),
    cbEmergency := decide (st.dailyPnl ≤ -st.emergencyStopLoss) }

/-- RiskManagementService._handle_trade_closed: accumulate daily P and L,
    update the peak, recompute the drawdown percentage, maintain the
    consecutive-loss streak and recompute the breakers. -/
def handleTradeClosed (st : RiskState) (pnl : ℚ) : RiskState :=
  let daily := st.dailyPnl + pnl
  let peak := if daily > st.peakPnl then daily else st.peakPnl
  let drawdown := peak - daily
  let drawdownPct := if peak > 0 then drawdown / peak * 100 else 0
  let losses := if pnl < 0 then st.consecutiveLosses + 1 else 0
  updateCircuitBreakers { st with
    dailyPnl := daily, peakPnl := peak, currentDrawdown := drawdownPct,
    consecutiveLosses := losses }

/-- RiskManagementService.reset_daily_metrics: zero the daily metrics,
    clear only the emergency breaker, trim timestamps older than a day. -/
def resetDailyMetrics (st : RiskState) (now : ℤ) : RiskState :=
  let cutoff := now - 86400
  { st with
    dailyPnl := 0, peakPnl := 0, currentDrawdown := 0,
    cbEmergency := false,
    tsAll := st.tsAll.filter (fun ts => cutoff < ts),
    tsConfluence := st.tsConfluence.filter (fun ts => cutoff < ts),
    tsArbitrage := st.tsArbitrage.filter (fun ts => cutoff < ts),
    tsTapeReading := st.tsTapeReading.filter (fun ts => cutoff < ts) }

/-- RiskManagementService.manual_override restricted to the breaker flag
    update (the override event is published on the bus). -/
def manualOverride (st : RiskState) (breaker : String) (active : Bool) : RiskState :=
  if breaker = "frequency" then { st with cbFrequency := active }
  else if breaker = "quality" then { st with cbQuality := active }
  else if breaker = "drawdown" then { st with cbDrawdown := active }
  else if breaker = "consecutive_losses" then { st with cbConsecutiveLosses := active }
  else if breaker = "emergency" then { st with cbEmergency := active }
  else st

/-! Position tracker, src/application/services/position_manager.py. -/

/-- Position dataclass; entry and exit wall-clock stamps are bookkeeping
    fields the claims do not read and are omitted. -/
structure Position where
  id : String
  signalId : String
  symbol : String
  direction : String
  entryPrice : ℚ
  size : ℤ
  stopLoss : ℚ
  targets : List ℚ
  currentPrice : ℚ
  pnl : ℚ
  pnlPoints : ℚ
  status : String
  exitPrice : Option ℚ
  exitReason : Option String
  maxProfit : ℚ
  maxLoss : ℚ
  warningsReceived : List String
  deriving DecidableEq, Repr

/-- Position.update_price: current price, P and L in points and currency
    (point value 10), and the excursion extrema. -/
def updatePrice (p : Position) (price : ℚ) : Position :=
  let pnlPoints :=
    if p.direction = "COMPRA" then price - p.entryPrice else p.entryPrice - price
  let pnl := pnlPoints * (p.size : ℚ) * 10
  { p with currentPrice := price, pnlPoints := pnlPoints, pnl := pnl,
           maxProfit := max p.maxProfit pnl, maxLoss := min p.maxLoss pnl }

/-- Mutable state of PositionManager. -/
structure PMState where
  maxPositions : Nat
  defaultSize : ℤ
  autoManage : Bool
  positions : List (String × Position)
  signalToPosition : List (String × String)
  closedPositions : List Position
  totalOpened : Nat
  totalClosed : Nat
  totalStopped : Nat
  totalTargetHit : Nat
  winCount : Nat
  lossCount : Nat
  totalPnl : ℚ
  deriving DecidableEq, Repr

/-- PositionManager.can_open_position. -/
def canOpenPosition (st : PMState) : Bool :=
  st.positions.length < st.maxPositions

/-- PositionManager._calculate_position_size: confidence tiers then
    setup-kind tiers, Python int() truncating toward zero. -/
def calculatePositionSize (st : PMState) (signal : StrategicSignal) : ℤ :=
  let baseSize := st.defaultSize
  let size :=
    if signal.confidence > 8/10 then pyTrunc ((baseSize : ℚ) * (15/10))
    else if signal.confidence < 6/10 then max 1 (pyTrunc ((baseSize : ℚ) * (7/10)))
    else baseSize
  if signal.setupType = SetupType.reversalViolent then max 1 (pyTrunc ((size : ℚ) * (8/10)))
  else if signal.setupType = SetupType.breakoutIgnition then pyTrunc ((size : ℚ) * (12/10))
  else size

/-- PositionManager._open_position.  The generated position id (a
    timestamp string in the source) is passed explicitly.  A falsy (zero
    or absent) execution price falls back to the entry price. -/
def openPosition (st : PMState) (signal : StrategicSignal) (positionId : String) :
    PMState :=
  if ¬ canOpenPosition st then st
  else
    let entry := pyOrPrice signal.executionPrice signal.entryPrice
    let pos : Position :=
      { id := positionId, signalId := signal.id, symbol := signal.symbol,
        direction := signal.direction, entryPrice := entry,
        size := calculatePositionSize st signal, stopLoss := signal.stopLoss,
        targets := signal.targets, currentPrice := entry, pnl := 0,
        pnlPoints := 0, status := "OPEN", exitPrice := none, exitReason := none,
        maxProfit := 0, maxLoss := 0, warningsReceived := [] }
    { st with
      positions := insertA positionId pos st.positions,
      signalToPosition := insertA signal.id positionId st.signalToPosition,
      totalOpened := st.totalOpened + 1 }

/-- The archived record _close_position builds: exit fields stamped and
    the final P and L recomputed at the exit price. -/
def closedRecord (pos : Position) (reason : String) (exitPrice : ℚ) : Position :=
  updatePrice
    { pos with exitPrice := some exitPrice, exitReason := some reason,
               status := if reason = "STOP_LOSS" then "STOPPED" else "CLOSED" }
    exitPrice

/-- PositionManager._close_position: drop the position from the open map
    and the signal index, push the archived record to the bounded closed
    history and update the aggregate statistics. -/
def closePosition (st : PMState) (pos : Position) (reason : String)
    (exitPrice : ℚ) : PMState :=
  let p1 := closedRecord pos reason exitPrice
  let st1 := { st with
    positions := eraseA pos.id st.positions,
    signalToPosition := eraseA pos.signalId st.signalToPosition,
    closedPositions := pushBounded 100 st.closedPositions p1,
    totalClosed := st.totalClosed + 1,
    totalPnl := st.totalPnl + p1.pnl }
  let st2 :=
    if reason = "STOP_LOSS" then { st1 with totalStopped := st1.totalStopped + 1 }
    else if strStartsWith reason "TARGET" then { st1 with totalTargetHit := st1.totalTargetHit + 1 }
    else st1
  if p1.pnl > 0 then { st2 with winCount := st2.winCount + 1 }
  else { st2 with lossCount := st2.lossCount + 1 }

/-- PositionManager._handle_signal_state_changed: open on EXECUTED when
    under the ceiling; otherwise close the linked position when the signal
    reaches STOPPED or TARGET_HIT.  A missing exit price is a runtime type
    error in the source; it is defaulted here and unused by the claims. -/
def handleSignalStateChanged (st : PMState) (signalId : String)
    (newState : SignalState) (signal : StrategicSignal) (positionId : String) :
    PMState :=
  if newState = SignalState.executed ∧ canOpenPosition st then
    openPosition st signal positionId
  else
    match lookupA signalId st.signalToPosition with
    | some pid =>
      match lookupA pid st.positions with
      | some pos =>
        if newState = SignalState.stopped then
          closePosition st pos "SIGNAL_STOPPED" (signal.exitPrice.getD 0)
        else if newState = SignalState.targetHit then
          closePosition st pos "TARGET_HIT" (signal.exitPrice.getD 0)
        else st
      | none => st
    | none => st

/-- PositionManager._handle_signal_expired: force-close the linked
    position at its current price only when it is running at a loss. -/
def handleSignalExpired (st : PMState) (signalId : String) : PMState :=
  match lookupA signalId st.signalToPosition with
  | some pid =>
    match lookupA pid st.positions with
    | some pos =>
      if pos.pnl < 0 then closePosition st pos "SIGNAL_EXPIRED" pos.currentPrice
      else st
    | none => st
  | none => st

/-- The direction a divergence event warns against: a BULLISH divergence
    alerts short positions, any other direction alerts longs. -/
def divergenceCounterDirection (divDirection : String) : String :=
  if divDirection = "BULLISH" then "VENDA" else "COMPRA"

/-- A position after recording one divergence warning. -/
def divergenceWarned (pos : Position) (divDirection : String) : Position :=
  { pos with warningsReceived := pos.warningsReceived ++ ["DIVERGENCE_" ++ divDirection] }

/-- Processing of one position inside _handle_divergence_warning: append
    the warning and close once the accumulated warning list (of any kind)
    has reached two entries, if auto-management is enabled. -/
def processDivergencePosition (st : PMState) (posId : String)
    (symbol divDirection : String) : PMState :=
  match lookupA posId st.positions with
  | some pos =>
    if pos.symbol = symbol ∧ pos.direction = divergenceCounterDirection divDirection then
      let pos2 := divergenceWarned pos divDirection
      let st2 := { st with positions := insertA posId pos2 st.positions }
      if pos2.warningsReceived.length ≥ 2 ∧ st.autoManage = true then
        closePosition st2 pos2 "MULTIPLE_WARNINGS" pos2.currentPrice
      else st2
    else st
  | none => st

/-- PositionManager._handle_divergence_warning, iterating over a snapshot
    of the open-position ids (the source iterates the live dict values;
    the snapshot ordering matches dict insertion order). -/
def handleDivergenceWarning (st : PMState) (symbol divDirection : String) : PMState :=
  (st.positions.map Prod.fst).foldl
    (fun acc posId => processDivergencePosition acc posId symbol divDirection) st

/-- Processing of one position inside _handle_manipulation_warning:
    record the warning and tighten the stop (never close). -/
def processManipulationPosition (st : PMState) (posId : String) (symbol : String) :
    PMState :=
  match lookupA posId st.positions with
  | some pos =>
    if pos.symbol = symbol then
      let pos2 := { pos with warningsReceived := pos.warningsReceived ++ ["MANIPULATION_RISK"] }
      let pos3 :=
        if st.autoManage then
          if pos2.direction = "COMPRA" then
            let newStop := pos2.entryPrice - (pos2.entryPrice - pos2.stopLoss) * (5/10)
            { pos2 with stopLoss := max pos2.stopLoss newStop }
          else
            let newStop := pos2.entryPrice + (pos2.stopLoss - pos2.entryPrice) * (5/10)
            { pos2 with stopLoss := min pos2.stopLoss newStop }
        else pos2
      { st with positions := insertA posId pos3 st.positions }
    else st
  | none => st

/-- PositionManager._handle_manipulation_warning over a snapshot of the
    open-position ids. -/
def handleManipulationWarning (st : PMState) (symbol : String) : PMState :=
  (st.positions.map Prod.fst).foldl
    (fun acc posId => processManipulationPosition acc posId symbol) st

/-- The signal a freshly registered entry carries: state PENDING and the
    per-kind expiration assigned by create_signal. -/
def pendingWithTimeout (cfg : TimeoutConfig) (signal : StrategicSignal) (now : ℤ) :
    StrategicSignal :=
  { signal with
    expirationTime := now + timeoutFor cfg signal.setupType,
    timeToExpirySeconds := timeoutFor cfg signal.setupType,
    state := SignalState.pending }

/-! Concrete fixtures used by witnesses and counterexamples. -/

def baseSignal : StrategicSignal :=
  { id := "s1", symbol := "WDO", setupType := SetupType.reversalSlow,
    direction := "COMPRA", entryPrice := 5000, entryType := EntryType.limit,
    stopLoss := 4990, targets := [5020], confidence := 65/100, riskReward := 2,
    conflictStatus := ConflictStatus.noConflict, confluenceFactors := [],
    state := SignalState.pending, timestamp := 0, expirationTime := 300,
    timeToExpirySeconds := 300, executionPrice := none, executionTime := none,
    exitPrice := none, exitTime := none, pnl := none }

def dolSignal : StrategicSignal :=
  { baseSignal with id := "s2", symbol := "DOL", entryPrice := 5001, stopLoss := 4991 }

def argsNone : TransitionArgs := { executionPrice := none, exitPrice := none }

def emptyLifecycleState : LifecycleState :=
  { activeSignals := [], signalHistory := [], totalCreated := 0,
    totalExecuted := 0, totalExpired := 0, totalStopped := 0,
    totalTargetsHit := 0, events := [], pendingTimers := [] }

def lifecycleWithS1 : LifecycleState :=
  { emptyLifecycleState with activeSignals := [("s1", baseSignal)] }

def sampleInput : SignalInput :=
  { setupType := SetupType.reversalSlow, symbol := "WDO", direction := "COMPRA",
    entryPrice := 5000, stopLoss := 4990, targets := [5020], confidence := 65/100,
    confluenceFactors := [] }

def emptyFilterContext : FilterContext := { book := none, volatility := none }

/-- The signal actually returned on the empty-slot path of the fixture. -/
def boostWitnessSignal : StrategicSignal :=
  ((createStrategicSignal true [] sampleInput emptyFilterContext "sig1" 0).1).getD baseSignal

def pendingWithDol : PendingMap := [("DOL", (dolSignal, 0))]

def emergencyRiskState : RiskState :=
  { maxSignalsPerMinute := 10, maxSignalsPerHour := 100, maxConfluencePerHour := 20,
    signalQualityThreshold := 4/10, consecutiveLossesLimit := 5,
    maxDrawdownPercent := 2, emergencyStopLoss := 1000,
    tsAll := [], tsConfluence := [], tsArbitrage := [], tsTapeReading := [],
    totalSignals := 0, signalsApproved := 0, signalsRejected := 0,
    consecutiveLosses := 0, dailyPnl := -1000, peakPnl := 0, currentDrawdown := 0,
    cbFrequency := false, cbQuality := false, cbDrawdown := false,
    cbConsecutiveLosses := false, cbEmergency := true }

def sampleRiskSignal : RiskSignal :=
  { source := SignalSourceT.confluence, level := SignalLevelT.alert,
    profit := none, confirmations := none, originalPattern := none, cvdRoc := none }

def losingPosition : Position :=
  { id := "p1", signalId := "s1", symbol := "WDO", direction := "COMPRA",
    entryPrice := 5000, size := 1, stopLoss := 4990, targets := [5020],
    currentPrice := 4995, pnl := -50, pnlPoints := -5, status := "OPEN",
    exitPrice := none, exitReason := none, maxProfit := 0, maxLoss := -50,
    warningsReceived := [] }

def pmStateWithLosing : PMState :=
  { maxPositions := 3, defaultSize := 1, autoManage := true,
    positions := [("p1", losingPosition)], signalToPosition := [("s1", "p1")],
    closedPositions := [], totalOpened := 1, totalClosed := 0, totalStopped := 0,
    totalTargetHit := 0, winCount := 0, lossCount := 0, totalPnl := 0 }

def manipWarnedPosition : Position :=
  { losingPosition with currentPrice := 5000, pnl := 0, pnlPoints := 0,
                        maxLoss := 0, warningsReceived := ["MANIPULATION_RISK"] }

def pmStateManipWarned : PMState :=
  { pmStateWithLosing with positions := [("p1", manipWarnedPosition)] }

def freshPosition : Position :=
  { losingPosition with currentPrice := 5000, pnl := 0, pnlPoints := 0, maxLoss := 0 }

def pmStateFresh : PMState :=
  { pmStateWithLosing with positions := [("p1", freshPosition)] }

/-! General lemmas about the association-list operations. -/

theorem insertA_length_le {α β : Type} [DecidableEq α] (k : α) (v : β)
    (l : List (α × β)) : (insertA k v l).length ≤ l.length + 1 := by
  induction l with
  | nil => simp [insertA]
  | cons kv rest ih =>
    simp only [insertA]
    split
    · simp
    · simpa using Nat.succ_le_succ ih

theorem eraseA_length_le {α β : Type} [DecidableEq α] (k : α)
    (l : List (α × β)) : (eraseA k l).length ≤ l.length := by
  induction l with
  | nil => simp [eraseA]
  | cons kv rest ih =>
    simp only [eraseA]
    split
    · exact Nat.le_succ _
    · simpa using Nat.succ_le_succ ih

/-! Claim C1: transition legality and the failure frame condition. -/

/-- C1: transition_state succeeds exactly when the id is in the active set
    and the state pair is in the fixed table; terminal states accept no
    outgoing transition; and a failed call leaves the manager state
    completely unchanged. -/
theorem transitionState_spec (st : LifecycleState) (signalId : String)
    (newState : SignalState) (args : TransitionArgs) (now : ℤ) (t : SignalState) :
    ((transitionState st signalId newState args now).1 = true ↔
      ∃ s, lookupA signalId st.activeSignals = some s ∧
        isValidTransition s.state newState = true) ∧
    (isTerminal t = true → isValidTransition t newState = false) ∧
    ((transitionState st signalId newState args now).1 = false →
      (transitionState st signalId newState args now).2 = st) := by
  refine ⟨?_, ?_, ?_⟩
  · cases h : lookupA signalId st.activeSignals with
    | none => simp [transitionState, h]
    | some s =>
      by_cases hv : isValidTransition s.state newState = true
      · simp only [transitionState, h, hv, if_true]
        exact ⟨fun _ => ⟨s, rfl, hv⟩, fun _ => trivial⟩
      · simp only [Bool.not_eq_true] at hv
        simp [transitionState, h, hv]
  · intro ht
    cases t <;> simp [isTerminal] at ht <;> rfl
  · cases h : lookupA signalId st.activeSignals with
    | none => simp [transitionState, h]
    | some s =>
      by_cases hv : isValidTransition s.state newState = true
      · simp [transitionState, h, hv]
      · simp only [Bool.not_eq_true] at hv
        simp [transitionState, h, hv]

/-- C1 witness: a concrete pending signal accepts the PENDING to ACTIVE
    transition. -/
theorem transitionState_spec_witness :
    (transitionState lifecycleWithS1 "s1" SignalState.active argsNone 0).1 = true :=
  (transitionState_spec lifecycleWithS1 "s1" SignalState.active argsNone 0
    SignalState.expired).1.mpr ⟨baseSignal, rfl, rfl⟩

/-! Claim C5: create_signal never rejects, duplicates included. -/

/-- C5 counterexample: the id s1 is already present in the active set yet
    create_signal still returns True, contradicting reject-on-duplicate. -/
theorem createSignal_duplicate_counterexample :
    (lookupA "s1" lifecycleWithS1.activeSignals).isSome = true ∧
    (createSignal defaultTimeoutConfig lifecycleWithS1 baseSignal 0).1 = true := by
  exact ⟨rfl, rfl⟩

/-- C5 amended: create_signal returns True for every input, also when the
    id is already present (the old entry is overwritten); it registers the
    signal as PENDING with the per-kind timeout expiration, publishes the
    creation event, schedules the auto-activation timer and bumps the
    creation counter. -/
theorem createSignal_spec (cfg : TimeoutConfig) (st : LifecycleState)
    (signal : StrategicSignal) (now : ℤ) :
    (createSignal cfg st signal now).1 = true ∧
    (createSignal cfg st signal now).2.activeSignals =
      insertA signal.id (pendingWithTimeout cfg signal now) st.activeSignals ∧
    (createSignal cfg st signal now).2.events =
      st.events ++ [LMEvent.created signal.id (timeoutFor cfg signal.setupType)] ∧
    (createSignal cfg st signal now).2.pendingTimers = st.pendingTimers ++ [signal.id] ∧
    (createSignal cfg st signal now).2.totalCreated = st.totalCreated + 1 := by
  exact ⟨rfl, rfl, rfl, rfl, rfl⟩

/-! Claim C3: confluence slot consumption. -/

/-- C3: when the other-symbol slot holds a candidate within the pairing
    timeout, exactly that slot is consumed and the classification computed
    by _analyze_confluence is returned, whatever it is; a slot older than
    the timeout is discarded, the new candidate is stored in its own slot,
    and the unresolved NO_CONFLICT result is returned. -/
theorem checkConfluence_slot_spec (pending : PendingMap)
    (signal otherSig : StrategicSignal) (now ts : ℤ)
    (h : lookupA (otherSymbol signal.symbol) pending = some (otherSig, ts)) :
    (now - ts ≤ confluenceConfig.timeoutSeconds →
      checkConfluence pending signal now =
        (analyzeConfluence signal otherSig,
         eraseA (otherSymbol signal.symbol) pending)) ∧
    (confluenceConfig.timeoutSeconds < now - ts →
      checkConfluence pending signal now =
        (ConflictStatus.noConflict,
         insertA signal.symbol (signal, now)
           (eraseA (otherSymbol signal.symbol) pending))) := by
  constructor
  · intro hle
    simp only [checkConfluence, h]
    rw [if_neg (not_lt.mpr hle)]
  · intro hgt
    simp only [checkConfluence, h]
    rw [if_pos hgt]

/-- C3 witness: a concrete DOL candidate five seconds old is consumed by a
    WDO arrival. -/
theorem checkConfluence_slot_spec_witness :
    checkConfluence pendingWithDol baseSignal 5 =
      (analyzeConfluence baseSignal dolSignal,
       eraseA (otherSymbol baseSignal.symbol) pendingWithDol) :=
  (checkConfluence_slot_spec pendingWithDol baseSignal dolSignal 5 0 rfl).1
    (by norm_num [confluenceConfig])

/-! Claim C4: the boost on the unresolved empty-slot path. -/

/-- C4 counterexample: the §8 scenario input (entry 5000, stop 4990,
    target 5020, confidence 0.65, no book, empty slots) yields a created
    signal whose confidence is 0.80, not the claimed unchanged 0.65: the
    fixed boost is applied although the pairing is unresolved. -/
theorem emptySlot_boost_counterexample :
    ((createStrategicSignal true [] sampleInput emptyFilterContext "sig1" 0).1.map
      (fun s => s.confidence)) = some (4/5) ∧ (4/5 : ℚ) ≠ 65/100 := by
  constructor
  · norm_num [createStrategicSignal, preConfluenceSignal, mkInitialSignal, applyAll,
      checkBasicValidity, checkConfluence, lookupA, insertA, otherSymbol, sampleInput,
      emptyFilterContext, applyFilterAdjustments, noAdjustments, determineEntryType,
      confluenceConfig, confluenceAdjustedConfidence]
  · norm_num

theorem mkInitialSignal_symbol (inp : SignalInput) (signalId : String) (now : ℤ) :
    (mkInitialSignal inp signalId now).symbol = inp.symbol := rfl

theorem mkInitialSignal_confidence (inp : SignalInput) (signalId : String) (now : ℤ) :
    (mkInitialSignal inp signalId now).confidence = inp.confidence := rfl

theorem applyFilterAdjustments_symbol (s : StrategicSignal) (adj : Adjustments) :
    (applyFilterAdjustments s adj).symbol = s.symbol := by
  unfold applyFilterAdjustments
  cases adj.tightenStop <;> cases adj.widenStop <;>
    simp only [] <;> split <;> (try split) <;> rfl

theorem applyFilterAdjustments_confidence (s : StrategicSignal) (adj : Adjustments) :
    (applyFilterAdjustments s adj).confidence = s.confidence := by
  unfold applyFilterAdjustments
  cases adj.tightenStop <;> cases adj.widenStop <;>
    simp only [] <;> split <;> (try split) <;> rfl

theorem preConfluenceSignal_symbol (enabled : Bool) (inp : SignalInput)
    (ctx : FilterContext) (signalId : String) (now : ℤ) :
    (preConfluenceSignal enabled inp ctx signalId now).symbol = inp.symbol := by
  unfold preConfluenceSignal
  rw [applyFilterAdjustments_symbol]
  rfl

theorem preConfluenceSignal_confidence (enabled : Bool) (inp : SignalInput)
    (ctx : FilterContext) (signalId : String) (now : ℤ) :
    (preConfluenceSignal enabled inp ctx signalId now).confidence =
      min (inp.confidence *
        (applyAll enabled (mkInitialSignal inp signalId now) ctx).confidenceMultiplier) 1 := by
  unfold preConfluenceSignal
  rw [applyFilterAdjustments_confidence]
  rfl

theorem checkConfluence_empty (pending : PendingMap) (signal : StrategicSignal)
    (now : ℤ) (h : lookupA (otherSymbol signal.symbol) pending = none) :
    checkConfluence pending signal now =
      (ConflictStatus.noConflict, insertA signal.symbol (signal, now) pending) := by
  simp only [checkConfluence, h]

/-- C4 amended: when the other-symbol slot is empty the signal is still
    created, but the unresolved case is reported as NO_CONFLICT, so the
    fixed confluence boost IS applied: the returned confidence is the
    filter-scaled confidence plus 0.15, capped at 1, and not the unchanged
    input. -/
theorem emptySlot_boost_spec (enabled : Bool) (pending : PendingMap)
    (inp : SignalInput) (ctx : FilterContext) (signalId : String) (now : ℤ)
    (hempty : lookupA (otherSymbol inp.symbol) pending = none) :
    ∀ s, (createStrategicSignal enabled pending inp ctx signalId now).1 = some s →
      s.conflictStatus = ConflictStatus.noConflict ∧
      s.confidence = min (min (inp.confidence *
        (applyAll enabled (mkInitialSignal inp signalId now) ctx).confidenceMultiplier) 1 +
        confluenceConfig.confidenceBoost) 1 := by
  intro s hs
  have hcc := checkConfluence_empty pending
    (preConfluenceSignal enabled inp ctx signalId now) now
    (by rw [preConfluenceSignal_symbol]; exact hempty)
  by_cases hp : (applyAll enabled (mkInitialSignal inp signalId now) ctx).passed = true
  · simp only [createStrategicSignal, hp, not_true, if_false, hcc] at hs
    simp only [confluenceAdjustedConfidence] at hs
    simp at hs
    rcases hs with rfl
    refine ⟨rfl, ?_⟩
    show min ((preConfluenceSignal enabled inp ctx signalId now).confidence +
      confluenceConfig.confidenceBoost) 1 = _
    rw [preConfluenceSignal_confidence]
  · simp [createStrategicSignal, hp] at hs

/-- The empty-slot fixture run really returns the witness signal. -/
theorem boostWitness_eq :
    (createStrategicSignal true [] sampleInput emptyFilterContext "sig1" 0).1 =
      some boostWitnessSignal := by
  norm_num [boostWitnessSignal, createStrategicSignal, preConfluenceSignal, mkInitialSignal,
    applyAll, checkBasicValidity, checkConfluence, lookupA, insertA, otherSymbol,
    sampleInput, emptyFilterContext, applyFilterAdjustments, noAdjustments,
    determineEntryType, confluenceConfig, confluenceAdjustedConfidence]

/-- C4 amended witness: the boost really lands on the concrete empty-slot
    fixture. -/
theorem emptySlot_boost_spec_witness :
    boostWitnessSignal.conflictStatus = ConflictStatus.noConflict ∧
    boostWitnessSignal.confidence = min (min (sampleInput.confidence *
      (applyAll true (mkInitialSignal sampleInput "sig1" 0) emptyFilterContext).confidenceMultiplier) 1 +
      confluenceConfig.confidenceBoost) 1 :=
  emptySlot_boost_spec true [] sampleInput emptyFilterContext "sig1" 0 rfl
    boostWitnessSignal boostWitness_eq

/-! Claim C6: final confidence stays in the unit interval. -/

theorem minMaxHalf_bounds (t : ℚ) :
    5/10 ≤ min (max t (5/10)) 1 ∧ min (max t (5/10)) 1 ≤ 1 :=
  ⟨le_min (le_max_right _ _) (by norm_num), min_le_right _ _⟩

theorem confidenceMultiplier_bounds (enabled : Bool) (signal : StrategicSignal)
    (ctx : FilterContext) :
    5/10 ≤ (applyAll enabled signal ctx).confidenceMultiplier ∧
    (applyAll enabled signal ctx).confidenceMultiplier ≤ 1 := by
  unfold applyAll
  by_cases he : enabled = true
  · rw [if_neg (not_not_intro he)]
    by_cases hb : (checkBasicValidity signal).passed = true
    · rw [if_neg (not_not_intro hb)]
      exact minMaxHalf_bounds _
    · rw [if_pos hb]
      constructor <;> norm_num
  · rw [if_pos he]
    constructor <;> norm_num

theorem confluenceAdjustedConfidence_bounds (c : ℚ) (cst : ConflictStatus)
    (h0 : 0 ≤ c) (h1 : c ≤ 1) :
    0 ≤ confluenceAdjustedConfidence c cst ∧ confluenceAdjustedConfidence c cst ≤ 1 := by
  unfold confluenceAdjustedConfidence confluenceConfig
  cases cst
  · simp only [reduceCtorEq, if_true, if_false]
    constructor
    · exact le_min (by linarith) (by norm_num)
    · exact min_le_right _ _
  · simp only [reduceCtorEq, if_false]
    exact ⟨h0, h1⟩
  · simp only [reduceCtorEq, if_false, if_true]
    constructor
    · exact mul_nonneg h0 (by norm_num)
    · nlinarith

/-- C6: every signal returned by create_strategic_signal carries a final
    confidence inside the unit interval, whatever combination of the
    filter multiplier, the fixed confluence boost and the major-conflict
    penalty was applied, given the entity invariant that the input
    confidence lies in the unit interval. -/
theorem finalConfidence_unit_interval (enabled : Bool) (pending : PendingMap)
    (inp : SignalInput) (ctx : FilterContext) (signalId : String) (now : ℤ)
    (h0 : 0 ≤ inp.confidence) (h1 : inp.confidence ≤ 1) :
    ∀ s, (createStrategicSignal enabled pending inp ctx signalId now).1 = some s →
      0 ≤ s.confidence ∧ s.confidence ≤ 1 := by
  intro s hs
  have hm := confidenceMultiplier_bounds enabled (mkInitialSignal inp signalId now) ctx
  have hc0 : 0 ≤ (preConfluenceSignal enabled inp ctx signalId now).confidence := by
    rw [preConfluenceSignal_confidence]
    exact le_min (mul_nonneg h0 (le_trans (by norm_num) hm.1)) (by norm_num)
  have hc1 : (preConfluenceSignal enabled inp ctx signalId now).confidence ≤ 1 := by
    rw [preConfluenceSignal_confidence]
    exact min_le_right _ _
  by_cases hp : (applyAll enabled (mkInitialSignal inp signalId now) ctx).passed = true
  · simp only [createStrategicSignal, hp, not_true, if_false] at hs
    split at hs
    · simp at hs
    · simp at hs
      rcases hs with rfl
      exact confluenceAdjustedConfidence_bounds _ _ hc0 hc1
  · simp [createStrategicSignal, hp] at hs

/-- C6 witness: the concrete fixture signal has confidence in the unit
    interval. -/
theorem finalConfidence_unit_interval_witness :
    0 ≤ boostWitnessSignal.confidence ∧ boostWitnessSignal.confidence ≤ 1 :=
  finalConfidence_unit_interval true [] sampleInput emptyFilterContext "sig1" 0
    (by norm_num [sampleInput]) (by norm_num [sampleInput])
    boostWitnessSignal boostWitness_eq

/-! Claim C2: the emergency breaker. -/

/-- C2 counterexample: with the emergency breaker set (daily loss at the
    1000 stop), a single profitable trade-closed event clears the breaker,
    with no daily reset and no manual override involved. -/
theorem tradeClose_clears_emergency_counterexample :
    emergencyRiskState.cbEmergency = true ∧
    (handleTradeClosed emergencyRiskState 500).cbEmergency = false := by
  constructor
  · rfl
  · norm_num [handleTradeClosed, updateCircuitBreakers, emergencyRiskState]

/-- C2 amended: while the emergency breaker is set every evaluate_signal
    call rejects with CRITICAL, and daily reset clears the breaker; but
    the breaker is recomputed from the metrics on every trade-closed
    event, so any close that lifts daily P and L above the negated
    emergency stop also clears it. -/
theorem emergencyBreaker_spec (st : RiskState) (sig : RiskSignal) (now hour : ℤ)
    (pnl : ℚ) (h : st.cbEmergency = true) :
    (evaluateSignal st sig now hour).approved = false ∧
    (evaluateSignal st sig now hour).riskLevel = RiskLevel.critical ∧
    ((handleTradeClosed st pnl).cbEmergency =
      decide (st.dailyPnl + pnl ≤ -st.emergencyStopLoss)) ∧
    (resetDailyMetrics st now).cbEmergency = false ∧
    (manualOverride st "emergency" false).cbEmergency = false := by
  have ht : anyBreakerTripped st = true := by
    simp [anyBreakerTripped, h]
  refine ⟨?_, ?_, rfl, rfl, rfl⟩
  · simp [evaluateSignal, ht]
  · simp [evaluateSignal, ht]

/-- C2 amended witness: the concrete emergency state rejects a signal and
    a profitable close recomputes the breaker off. -/
theorem emergencyBreaker_spec_witness :
    (evaluateSignal emergencyRiskState sampleRiskSignal 0 12).approved = false ∧
    (evaluateSignal emergencyRiskState sampleRiskSignal 0 12).riskLevel = RiskLevel.critical ∧
    ((handleTradeClosed emergencyRiskState 500).cbEmergency =
      decide (emergencyRiskState.dailyPnl + 500 ≤ -emergencyRiskState.emergencyStopLoss)) ∧
    (resetDailyMetrics emergencyRiskState 0).cbEmergency = false ∧
    (manualOverride emergencyRiskState "emergency" false).cbEmergency = false :=
  emergencyBreaker_spec emergencyRiskState sampleRiskSignal 0 12 500 rfl

/-! Claim C10: rejection leaves the frequency deques untouched. -/

/-- C10: whenever evaluate_signal rejects, all four rolling timestamp
    deques are exactly as before the call: timestamps are recorded only on
    approval, so rejected candidates alone can never trip the frequency
    limits. -/
theorem rejection_frame_timestamps (st : RiskState) (sig : RiskSignal)
    (now hour : ℤ)
    (h : (evaluateSignal st sig now hour).approved = false) :
    (evaluateSignal st sig now hour).state.tsAll = st.tsAll ∧
    (evaluateSignal st sig now hour).state.tsConfluence = st.tsConfluence ∧
    (evaluateSignal st sig now hour).state.tsArbitrage = st.tsArbitrage ∧
    (evaluateSignal st sig now hour).state.tsTapeReading = st.tsTapeReading := by
  by_cases h1 : anyBreakerTripped st = true
  · simp [evaluateSignal, h1]
  · by_cases h2 : checkSignalFrequency st sig now = true
    · by_cases h3 : qualityScore sig < st.signalQualityThreshold
      · simp [evaluateSignal, h1, h2, h3]
      · by_cases h4 : contextualRiskLevel (contextualRiskScore st sig hour) = RiskLevel.high ∨
            contextualRiskLevel (contextualRiskScore st sig hour) = RiskLevel.critical
        · rcases h4 with h4 | h4 <;> simp [evaluateSignal, h1, h2, h3, h4]
        · exfalso
          rw [not_or] at h4
          simp [evaluateSignal, h1, h2, h3, h4.1, h4.2] at h
    · simp [evaluateSignal, h1, h2]

/-- C10 witness: the rejected evaluation on the emergency fixture leaves
    every timestamp deque unchanged. -/
theorem rejection_frame_timestamps_witness :
    (evaluateSignal emergencyRiskState sampleRiskSignal 0 12).state.tsAll =
      emergencyRiskState.tsAll ∧
    (evaluateSignal emergencyRiskState sampleRiskSignal 0 12).state.tsConfluence =
      emergencyRiskState.tsConfluence ∧
    (evaluateSignal emergencyRiskState sampleRiskSignal 0 12).state.tsArbitrage =
      emergencyRiskState.tsArbitrage ∧
    (evaluateSignal emergencyRiskState sampleRiskSignal 0 12).state.tsTapeReading =
      emergencyRiskState.tsTapeReading :=
  rejection_frame_timestamps emergencyRiskState sampleRiskSignal 0 12 rfl

/-! Lemmas about closing and opening positions. -/

theorem closePosition_positions (st : PMState) (pos : Position) (reason : String)
    (exitPrice : ℚ) :
    (closePosition st pos reason exitPrice).positions = eraseA pos.id st.positions := by
  unfold closePosition
  by_cases h2 : reason = "STOP_LOSS" <;>
    by_cases h3 : strStartsWith reason "TARGET" = true <;>
    simp [h2, h3] <;>
    split <;> rfl

theorem closePosition_closedPositions (st : PMState) (pos : Position)
    (reason : String) (exitPrice : ℚ) :
    (closePosition st pos reason exitPrice).closedPositions =
      pushBounded 100 st.closedPositions (closedRecord pos reason exitPrice) := by
  unfold closePosition
  by_cases h2 : reason = "STOP_LOSS" <;>
    by_cases h3 : strStartsWith reason "TARGET" = true <;>
    simp [h2, h3] <;>
    split <;> rfl

theorem insertA_length_of_found {α β : Type} [DecidableEq α] (k : α) (v2 : β)
    (l : List (α × β)) (h : (lookupA k l).isSome = true) :
    (insertA k v2 l).length = l.length := by
  induction l with
  | nil => simp [lookupA] at h
  | cons kv rest ih =>
    simp only [lookupA, insertA] at h ⊢
    split
    · simp
    · rename_i hne
      rw [if_neg hne] at h
      simpa using ih h

theorem processDivergence_length_le (st : PMState) (posId symbol divDirection : String) :
    (processDivergencePosition st posId symbol divDirection).positions.length ≤
      st.positions.length := by
  unfold processDivergencePosition
  cases hl : lookupA posId st.positions with
  | none => exact le_refl _
  | some pos =>
    simp only []
    by_cases hc : pos.symbol = symbol ∧ pos.direction = divergenceCounterDirection divDirection
    · rw [if_pos hc]
      have hins : (insertA posId (divergenceWarned pos divDirection) st.positions).length =
          st.positions.length :=
        insertA_length_of_found _ _ _ (by rw [hl]; rfl)
      split
      · rw [closePosition_positions]
        exact le_trans (eraseA_length_le _ _) (le_of_eq hins)
      · exact le_of_eq hins
    · rw [if_neg hc]

theorem processManipulation_length_le (st : PMState) (posId symbol : String) :
    (processManipulationPosition st posId symbol).positions.length ≤
      st.positions.length := by
  unfold processManipulationPosition
  cases hl : lookupA posId st.positions with
  | none => exact le_refl _
  | some pos =>
    simp only []
    by_cases hc : pos.symbol = symbol
    · rw [if_pos hc]
      exact le_of_eq (insertA_length_of_found _ _ _ (by rw [hl]; rfl))
    · rw [if_neg hc]

theorem foldl_positions_length_le (f : PMState → String → PMState)
    (hf : ∀ acc x, (f acc x).positions.length ≤ acc.positions.length)
    (l : List String) (st : PMState) :
    (l.foldl f st).positions.length ≤ st.positions.length := by
  induction l generalizing st with
  | nil => exact le_refl _
  | cons x xs ih => exact le_trans (ih (f st x)) (hf st x)

theorem openPosition_length_le (st : PMState) (signal : StrategicSignal)
    (positionId : String) (h : st.positions.length ≤ st.maxPositions) :
    (openPosition st signal positionId).positions.length ≤ st.maxPositions := by
  unfold openPosition
  by_cases hc : canOpenPosition st = true
  · rw [if_neg (not_not_intro hc)]
    have h2 : st.positions.length < st.maxPositions := by
      unfold canOpenPosition at hc
      exact of_decide_eq_true hc
    exact le_trans (insertA_length_le _ _ _) (Nat.succ_le_of_lt h2)
  · rw [if_pos hc]
    exact h

/-! Claim C7: the open-position ceiling. -/

/-- C7: every position-map mutating handler keeps the open-position count
    at or below the configured ceiling (the state-change handler is the
    only one that can open; expiry, divergence and manipulation handlers
    never grow the map), and when the ceiling is already reached an
    EXECUTED transition opens nothing: the position map is unchanged. -/
theorem positionCeiling_invariant (st : PMState) (signalId : String)
    (newState : SignalState) (signal : StrategicSignal)
    (positionId expiredId wsymbol divDirection msymbol : String)
    (h : st.positions.length ≤ st.maxPositions) :
    (handleSignalStateChanged st signalId newState signal positionId).positions.length ≤
      st.maxPositions ∧
    (st.positions.length = st.maxPositions → newState = SignalState.executed →
      (handleSignalStateChanged st signalId newState signal positionId).positions =
        st.positions) ∧
    (handleSignalExpired st expiredId).positions.length ≤ st.maxPositions ∧
    (handleDivergenceWarning st wsymbol divDirection).positions.length ≤ st.maxPositions ∧
    (handleManipulationWarning st msymbol).positions.length ≤ st.maxPositions := by
  refine ⟨?_, ?_, ?_, ?_, ?_⟩
  · unfold handleSignalStateChanged
    split
    · exact openPosition_length_le st signal positionId h
    · cases hm : lookupA signalId st.signalToPosition with
      | none => exact h
      | some pid =>
        cases hp : lookupA pid st.positions with
        | none =>
          simp only [hp]
          exact h
        | some pos =>
          simp only [hp]
          by_cases hs1 : newState = SignalState.stopped
          · rw [if_pos hs1, closePosition_positions]
            exact le_trans (eraseA_length_le _ _) h
          · rw [if_neg hs1]
            by_cases hs2 : newState = SignalState.targetHit
            · rw [if_pos hs2, closePosition_positions]
              exact le_trans (eraseA_length_le _ _) h
            · rw [if_neg hs2]
              exact h
  · intro hfull hexec
    subst hexec
    have hco : canOpenPosition st = false := by
      unfold canOpenPosition
      rw [hfull]
      simp
    unfold handleSignalStateChanged
    rw [if_neg (fun hc => by simp [hco] at hc)]
    cases hm : lookupA signalId st.signalToPosition with
    | none => rfl
    | some pid =>
      cases hp : lookupA pid st.positions with
      | none => simp only [hp]
      | some pos =>
        simp only [hp]
        rw [if_neg (by decide), if_neg (by decide)]
  · unfold handleSignalExpired
    cases hm : lookupA expiredId st.signalToPosition with
    | none => exact h
    | some pid =>
      cases hp : lookupA pid st.positions with
      | none =>
        simp only [hp]
        exact h
      | some pos =>
        simp only [hp]
        split
        · rw [closePosition_positions]
          exact le_trans (eraseA_length_le _ _) h
        · exact h
  · unfold handleDivergenceWarning
    exact le_trans
      (foldl_positions_length_le _
        (fun acc x => processDivergence_length_le acc x wsymbol divDirection) _ st) h
  · unfold handleManipulationWarning
    exact le_trans
      (foldl_positions_length_le _
        (fun acc x => processManipulation_length_le acc x msymbol) _ st) h

/-- C7 witness: a concrete below-ceiling state respects the ceiling under
    an EXECUTED step and the warning and expiry handlers. -/
theorem positionCeiling_invariant_witness :
    (handleSignalStateChanged pmStateWithLosing "s9" SignalState.executed baseSignal
      "p9").positions.length ≤ pmStateWithLosing.maxPositions ∧
    (pmStateWithLosing.positions.length = pmStateWithLosing.maxPositions →
      SignalState.executed = SignalState.executed →
      (handleSignalStateChanged pmStateWithLosing "s9" SignalState.executed baseSignal
        "p9").positions = pmStateWithLosing.positions) ∧
    (handleSignalExpired pmStateWithLosing "s1").positions.length ≤
      pmStateWithLosing.maxPositions ∧
    (handleDivergenceWarning pmStateWithLosing "WDO" "BEARISH").positions.length ≤
      pmStateWithLosing.maxPositions ∧
    (handleManipulationWarning pmStateWithLosing "WDO").positions.length ≤
      pmStateWithLosing.maxPositions :=
  positionCeiling_invariant pmStateWithLosing "s9" SignalState.executed baseSignal
    "p9" "s1" "WDO" "BEARISH" "WDO" (by decide)

/-! Claim C8: expiry closes only losing linked positions. -/

theorem closedRecord_exitReason (pos : Position) (reason : String) (exitPrice : ℚ) :
    (closedRecord pos reason exitPrice).exitReason = some reason := rfl

theorem closedRecord_exitPrice (pos : Position) (reason : String) (exitPrice : ℚ) :
    (closedRecord pos reason exitPrice).exitPrice = some exitPrice := rfl

/-- C8: on a signal-expired event a linked position with strictly negative
    running P and L is force-closed with reason SIGNAL_EXPIRED at its
    current price (removed from the open map and archived with those exit
    fields); a linked position at or above break-even leaves the whole
    manager state unchanged. -/
theorem signalExpired_policy (st : PMState) (signalId pid : String) (pos : Position)
    (h1 : lookupA signalId st.signalToPosition = some pid)
    (h2 : lookupA pid st.positions = some pos) :
    (pos.pnl < 0 →
      handleSignalExpired st signalId =
        closePosition st pos "SIGNAL_EXPIRED" pos.currentPrice ∧
      (handleSignalExpired st signalId).positions = eraseA pos.id st.positions ∧
      (handleSignalExpired st signalId).closedPositions =
        pushBounded 100 st.closedPositions
          (closedRecord pos "SIGNAL_EXPIRED" pos.currentPrice) ∧
      (closedRecord pos "SIGNAL_EXPIRED" pos.currentPrice).exitReason =
        some "SIGNAL_EXPIRED" ∧
      (closedRecord pos "SIGNAL_EXPIRED" pos.currentPrice).exitPrice =
        some pos.currentPrice) ∧
    (0 ≤ pos.pnl → handleSignalExpired st signalId = st) := by
  have he : handleSignalExpired st signalId =
      (if pos.pnl < 0 then closePosition st pos "SIGNAL_EXPIRED" pos.currentPrice
       else st) := by
    unfold handleSignalExpired
    simp only [h1, h2]
  constructor
  · intro hneg
    rw [he, if_pos hneg]
    exact ⟨rfl, closePosition_positions st pos _ _,
      closePosition_closedPositions st pos _ _, rfl, rfl⟩
  · intro hge
    rw [he, if_neg (not_lt.mpr hge)]

/-- C8 witness: the concrete losing linked position is closed with reason
    SIGNAL_EXPIRED at its current price. -/
theorem signalExpired_policy_witness :
    handleSignalExpired pmStateWithLosing "s1" =
      closePosition pmStateWithLosing losingPosition "SIGNAL_EXPIRED"
        losingPosition.currentPrice ∧
    (handleSignalExpired pmStateWithLosing "s1").positions =
      eraseA losingPosition.id pmStateWithLosing.positions ∧
    (handleSignalExpired pmStateWithLosing "s1").closedPositions =
      pushBounded 100 pmStateWithLosing.closedPositions
        (closedRecord losingPosition "SIGNAL_EXPIRED" losingPosition.currentPrice) ∧
    (closedRecord losingPosition "SIGNAL_EXPIRED"
      losingPosition.currentPrice).exitReason = some "SIGNAL_EXPIRED" ∧
    (closedRecord losingPosition "SIGNAL_EXPIRED"
      losingPosition.currentPrice).exitPrice = some losingPosition.currentPrice :=
  (signalExpired_policy pmStateWithLosing "s1" "p1" losingPosition rfl rfl).1
    (by norm_num [losingPosition])

/-! Claim C9: divergence warnings and the two-warning close. -/

/-- C9 counterexample: a position that never received a divergence warning
    but carries one manipulation warning is force-closed with reason
    MULTIPLE_WARNINGS by its FIRST divergence warning, because the handler
    counts the accumulated warning list of any kind. -/
theorem firstDivergence_close_counterexample :
    (pmStateManipWarned.positions.map (fun kv => kv.2.warningsReceived)) =
      [["MANIPULATION_RISK"]] ∧
    pmStateManipWarned.autoManage = true ∧
    (handleDivergenceWarning pmStateManipWarned "WDO" "BEARISH").positions = [] ∧
    ((handleDivergenceWarning pmStateManipWarned "WDO" "BEARISH").closedPositions.map
      (fun p => p.exitReason)) = [some "MULTIPLE_WARNINGS"] := by
  refine ⟨rfl, rfl, ?_, ?_⟩ <;>
    norm_num [handleDivergenceWarning, processDivergencePosition, divergenceWarned,
      divergenceCounterDirection, closePosition, closedRecord, updatePrice, pushBounded,
      lookupA, insertA, eraseA, pmStateManipWarned, pmStateWithLosing,
      manipWarnedPosition, losingPosition,
      (by simp : ("BEARISH" = "BULLISH") = False),
      (by simp : ("MULTIPLE_WARNINGS" = "STOP_LOSS") = False)] <;>
    rfl

/-- C9 amended: a divergence warning against the single open position
    closes it with reason MULTIPLE_WARNINGS exactly when the accumulated
    warning list (divergence and manipulation warnings alike) reaches two
    entries with auto-management on; a position with no prior warnings of
    any kind is never closed by its first divergence warning. -/
theorem divergenceWarning_spec (st : PMState) (posId : String) (pos : Position)
    (symbol divDirection : String)
    (hpos : st.positions = [(posId, pos)])
    (hsym : pos.symbol = symbol)
    (hdir : pos.direction = divergenceCounterDirection divDirection) :
    handleDivergenceWarning st symbol divDirection =
      (if 2 ≤ pos.warningsReceived.length + 1 ∧ st.autoManage = true then
        closePosition
          { st with positions := insertA posId (divergenceWarned pos divDirection) st.positions }
          (divergenceWarned pos divDirection) "MULTIPLE_WARNINGS" pos.currentPrice
      else
        { st with positions := insertA posId (divergenceWarned pos divDirection) st.positions }) ∧
    (pos.warningsReceived = [] →
      (handleDivergenceWarning st symbol divDirection).positions =
        insertA posId (divergenceWarned pos divDirection) st.positions) := by
  have hlook : lookupA posId st.positions = some pos := by
    rw [hpos]
    simp [lookupA]
  have hstep : handleDivergenceWarning st symbol divDirection =
      processDivergencePosition st posId symbol divDirection := by
    unfold handleDivergenceWarning
    rw [hpos]
    rfl
  have hmain : handleDivergenceWarning st symbol divDirection =
      (if 2 ≤ pos.warningsReceived.length + 1 ∧ st.autoManage = true then
        closePosition
          { st with positions := insertA posId (divergenceWarned pos divDirection) st.positions }
          (divergenceWarned pos divDirection) "MULTIPLE_WARNINGS" pos.currentPrice
      else
        { st with positions := insertA posId (divergenceWarned pos divDirection) st.positions }) := by
    rw [hstep]
    unfold processDivergencePosition
    simp only [hlook, if_pos (And.intro hsym hdir)]
    simp only [divergenceWarned, List.length_append, List.length_cons, List.length_nil]
  refine ⟨hmain, ?_⟩
  intro hw
  rw [hmain, if_neg (fun hc => by rw [hw] at hc; simp at hc)]

/-- C9 amended witness: a fresh position gets the warning recorded but is
    not closed by its first divergence warning. -/
theorem divergenceWarning_spec_witness :
    (handleDivergenceWarning pmStateFresh "WDO" "BEARISH").positions =
      insertA "p1" (divergenceWarned freshPosition "BEARISH") pmStateFresh.positions :=
  (divergenceWarning_spec pmStateFresh "p1" freshPosition "WDO" "BEARISH"
    rfl rfl rfl).2 rfl

end Trading
